import Mathlib

/-!
Shallow embedding of the scraper repository (Express front end in
src/index.js, browser-automation service in src/unnamed/part_001 which is
the module index.js loads as ./services/chatgpt-service, and the legacy
service variant in src/chatgpt-service.js).  Pure data flow is modelled
by explicit state passing: the outcomes of the external browser steps
(selector probes, DOM evaluations, clock readings) are inputs, and the
side effects the claims talk about (CSV writes, prompt submissions) are
collected in explicit traces.
-/

/-- Outcome of probing one CSS selector inside the fallback loops of
part_001: the page query may raise, find nothing, find an invisible
element, or find a visible one (only the last counts as success; the
loops continue on an exception exactly as they do on a miss). -/
inductive ProbeResult
  | err
  | absent
  | invisible
  | ok
deriving DecidableEq

/-- The ordered chat-input selector chain, verbatim from part_001
lines 958-970 (chatInputSelectors). -/
def chatInputSelectors : List String :=
  ["textarea[data-id=\"root\"]",
   "textarea[placeholder*=\"Send a message\"]",
   "textarea[placeholder*=\"Message ChatGPT\"]",
   "textarea[placeholder*=\"Ask anything\"]",
   "textarea[placeholder*=\"Chat with GPT\"]",
   "textarea.chat-input",
   "div[role=\"textbox\"]",
   "div[contenteditable=\"true\"]",
   "textarea",
   "form textarea",
   "input[type=\"text\"]"]

/-- The ordered send-control selector chain, verbatim from part_001
lines 1328-1340 (sendButtonSelectors). -/
def sendButtonSelectors : List String :=
  ["button[aria-label=\"Send message\"]",
   "button.send-button",
   "button[type=\"submit\"]",
   "button:has-text(\"Send\")",
   "button svg[data-testid=\"send-icon\"]",
   "svg[data-testid=\"send-button-icon\"]",
   "button.chat-send",
   "button.submit",
   "button.send",
   "button.submit-button",
   "svg path[d=\"M.5 1.163A1 1 0 0 1 1.97.28l12.868 6.837a1 1 0 0 1 0 1.766L1.969 15.72A1 1 0 0 1 .5 14.836V10.33a1 1 0 0 1 .816-.983L8.5 8 1.316 6.653A1 1 0 0 1 .5 5.67V1.163Z\"]"]

/-- The fallback loop of part_001 (both the chat-input loop at lines
979-1004 and the send-button loop at lines 1342-1361): walk the selector
list in order and stop at the first selector whose probe finds a visible
element; errors and misses both fall through to the next selector. -/
def firstOkay (probe : String → ProbeResult) : List String → Option String
  | [] => none
  | s :: rest => if probe s = ProbeResult.ok then some s else firstOkay probe rest

/-- The selectors the loop actually probes: every selector up to and
including the first success, or the whole list when no probe succeeds. -/
def probedList (probe : String → ProbeResult) : List String → List String
  | [] => []
  | s :: rest => if probe s = ProbeResult.ok then [s] else s :: probedList probe rest

/-- One record of the delimited output file: the csv-writer row built in
saveResponseToCsv (both service variants, identical code). -/
structure CsvRecord where
  prompt : String
  response : String
  timestamp : String
deriving DecidableEq

/-- A CSV file as produced by createObjectCsvWriter plus one writeRecords
call: a path, a header row of column titles, and the written records. -/
structure CsvFile where
  path : String
  header : List String
  records : List CsvRecord
deriving DecidableEq

/-- The timestamp sanitisation used for the output file name:
new Date().toISOString().replace of every colon and dot by a dash. -/
def sanitizeStamp (s : String) : String :=
  String.map (fun c => if c = ':' || c = '.' then '-' else c) s

/-- saveResponseToCsv from src/chatgpt-service.js lines 200-223 (the copy
in part_001 lines 1903-1926 is identical up to a log line).  The two
new Date() calls are modelled by the two clock-reading arguments: tFile
is the reading used (sanitised) in the file name, tRec the reading stored
in the record.  path.join with the outputs directory is rendered as the
directory prefix. -/
def saveResponseToCsv (type prompt response tFile tRec : String) : CsvFile :=
  { path := "outputs/chatgpt-" ++ type ++ "-response-" ++ sanitizeStamp tFile ++ ".csv",
    header := ["Prompt", "Response", "Timestamp"],
    records := [{ prompt := prompt, response := response, timestamp := tRec }] }

/-- How the chat input ends up located in part_001: either a CSS selector
(chatInputSelector) is recorded, or keyboard Tab navigation left the
focus on the input and no selector is recorded. -/
inductive ChatInput
  | selector (s : String)
  | keyboardFocus
deriving DecidableEq

/-- The page-dependent outcomes of the external browser steps taken by
chatGPTInteraction in part_001 after navigation.  Each field abstracts
one page.$/page.evaluate interaction whose result depends only on the
live page: the probe outcome of each direct selector, the selector the
form-element search would yield (approach 2), the selector the
bottom-of-page search would yield (approach 3), whether Tab navigation
reaches an input (approach 4), the probe outcomes for the send-button
chain, the selector the form-button search would yield, whether the
response wait raised, whether typing the reply raised, and the text the
response-extraction evaluation returns (that evaluation always yields a
string: its own catch substitutes an error string). -/
structure Page1 where
  inputProbe : String → ProbeResult
  formInputSelector : Option String
  bottomSelector : Option String
  keyboardFocusFound : Bool
  sendProbe : String → ProbeResult
  formButtonSelector : Option String
  responseWaitErr : Option String
  replyTypingErr : Option String
  extractedText : String

/-- The four-approach input-location phase of part_001 (lines 956-1266):
the direct selector chain, then the form-element search, then the
bottom-of-page search, then keyboard Tab navigation; each later approach
runs only when every earlier one failed. -/
def locateChatInput (pg : Page1) : Option ChatInput :=
  match firstOkay pg.inputProbe chatInputSelectors with
  | some s => some (ChatInput.selector s)
  | none =>
    match pg.formInputSelector with
    | some s => some (ChatInput.selector s)
    | none =>
      match pg.bottomSelector with
      | some s => some (ChatInput.selector s)
      | none => if pg.keyboardFocusFound then some ChatInput.keyboardFocus else none

/-- The value chatGPTInteraction resolves with, covering both return
shapes of part_001 (success at lines 1794-1801, failure at lines
1822-1826); fields a shape omits are none. -/
structure RunResult1 where
  success : Bool
  initialResponse : Option String
  replyResponse : Option String
  initialCsvPath : Option String
  replyCsvPath : Option String
  error : Option String
deriving DecidableEq

/-- Side effects of one automation run: the CSV files written through
saveResponseToCsv and the prompt texts submitted to the page, in
submission order. -/
structure Trace1 where
  writes : List CsvFile
  submitted : List String
deriving DecidableEq

/-- The wrapping applied by the inner catch of part_001 (line 1806) to
any error raised inside the chat-interface phase. -/
def couldNotAccess (msg : String) : String :=
  "Could not access the chat interface: " ++ msg

/-- chatGPTInteraction from part_001 (the module src/index.js loads as
./services/chatgpt-service), modelled from the located-page phase on.
Control flow from the source: if no approach locates a chat input, the
inner throw at line 1263 is wrapped by the catch at line 1806 and the
outer catch at line 1822 returns a failure result, with nothing
submitted.  Otherwise the initial prompt is typed and submitted once
(send-button click or Enter).  If the response wait raises, the catch at
line 1535 rethrows and the same catch chain yields a failure.  Otherwise
the extraction evaluation yields the initial response text.  With no
reply prompt the run returns the success shape of lines 1794-1801, whose
initialCsvPath is the literal empty string; saveResponseToCsv is never
called anywhere in this function, so the write trace stays empty.  With
a reply prompt, humanTyping at line 1657 may raise, and otherwise the
call sendMessage(page, chatInputSelector, sendButtonSelector) at line
1661 raises ReferenceError (sendMessage is not defined in module scope:
the only sendMessage in the file is a property of the in-page
window.chrome spoof object at line 480), so the reply branch always
fails before any follow-up submission. -/
def chatGPTInteraction1 (pg : Page1) (initialPrompt : String)
    (replyPrompt : Option String) : RunResult1 × Trace1 :=
  match locateChatInput pg with
  | none =>
    ({ success := false, initialResponse := none, replyResponse := none,
       initialCsvPath := none, replyCsvPath := none,
       error := some (couldNotAccess
         "Could not find any usable chat input interface. The page structure may have changed.") },
     { writes := [], submitted := [] })
  | some _input =>
    match pg.responseWaitErr with
    | some m =>
      ({ success := false, initialResponse := none, replyResponse := none,
         initialCsvPath := none, replyCsvPath := none,
         error := some (couldNotAccess ("Error waiting for ChatGPT response: " ++ m)) },
       { writes := [], submitted := [initialPrompt] })
    | none =>
      let initialResponse := pg.extractedText
      match replyPrompt with
      | none =>
        ({ success := true, initialResponse := some initialResponse, replyResponse := none,
           initialCsvPath := some "", replyCsvPath := none, error := none },
         { writes := [], submitted := [initialPrompt] })
      | some _rp =>
        let msg := match pg.replyTypingErr with
          | some m => m
          | none => "sendMessage is not defined"
        ({ success := false, initialResponse := none, replyResponse := none,
           initialCsvPath := none, replyCsvPath := none,
           error := some (couldNotAccess msg) },
         { writes := [], submitted := [initialPrompt] })

/-- The page/clock-dependent inputs of the legacy service variant
src/chatgpt-service.js: the two extracted response texts and the
successive new Date().toISOString() readings. -/
structure LegacyEnv where
  extractedInitial : String
  extractedReply : String
  nowSeq : Nat → String

/-- chatGPTInteraction from the legacy variant src/chatgpt-service.js
lines 20-138, modelled on its success path (every failing await in that
variant raises out of the function, so a returned value implies the
happy path).  It saves the initial response through saveResponseToCsv
at line 86, then, exactly when a reply prompt is present, submits the
follow-up once and saves the reply through saveResponseToCsv at line
118. -/
def chatGPTInteractionLegacy (env : LegacyEnv) (initialPrompt : String)
    (replyPrompt : Option String) : RunResult1 × Trace1 :=
  let w1 := saveResponseToCsv "initial" initialPrompt env.extractedInitial
    (env.nowSeq 0) (env.nowSeq 1)
  match replyPrompt with
  | none =>
    ({ success := true, initialResponse := some env.extractedInitial, replyResponse := none,
       initialCsvPath := some w1.path, replyCsvPath := none, error := none },
     { writes := [w1], submitted := [initialPrompt] })
  | some rp =>
    let w2 := saveResponseToCsv "reply" rp env.extractedReply
      (env.nowSeq 2) (env.nowSeq 3)
    ({ success := true, initialResponse := some env.extractedInitial,
       replyResponse := some env.extractedReply,
       initialCsvPath := some w1.path, replyCsvPath := some w2.path, error := none },
     { writes := [w1, w2], submitted := [initialPrompt, rp] })

/-- The fields of the POST /chat request body that src/index.js
destructures at line 44; absent fields are none. -/
structure ChatRequestBody where
  email : Option String
  password : Option String
  initialPrompt : Option String
  replyPrompt : Option String
deriving DecidableEq

/-- JavaScript truthiness of an optional string field: an absent field
and the empty string are falsy, every other string is truthy. -/
def truthy : Option String → Bool
  | none => false
  | some s => !(s == "")

/-- The JSON payloads the /chat route of src/index.js can send: the 400
body of line 47, the 200 body of lines 74-77 (the spread of the run
result over success: true, in which the result object, which always
carries its own success field, overrides it), and the 500 body of lines
91-94. -/
inductive JsonBody
  | missingPrompt
  | mergedResult (r : RunResult1)
  | failure (error suggestion : String)
deriving DecidableEq

/-- An HTTP response of the /chat route: status code and JSON body. -/
structure HttpResponse where
  status : Nat
  body : JsonBody
deriving DecidableEq

/-- The success flag carried by a JSON payload, when it has one. -/
def jsonSuccess : JsonBody → Option Bool
  | JsonBody.mergedResult r => some r.success
  | _ => none

/-- The suggestion string of the 500 body at line 93 of src/index.js. -/
def suggestionText : String :=
  "If you encountered a CAPTCHA issue, try again and be ready to solve the CAPTCHA in the browser window."

/-- The fallback applied to error.message at line 92 of src/index.js. -/
def errMsgOr (e : String) : String :=
  if e == "" then "An error occurred during the ChatGPT interaction" else e

/-- Outcome of one handled POST /chat request: the HTTP response and
whether chatGPTInteraction was invoked at all. -/
structure HandlerOutcome where
  response : HttpResponse
  invokedAutomation : Bool
deriving DecidableEq

/-- The POST /chat handler of src/index.js lines 42-96.  With a falsy
initialPrompt it returns 400 at line 47 before the automation call at
line 71 is reached.  Otherwise the awaited automation run either
resolves with a result, answered by res.json at lines 74-77 (status 200,
success: true spread-merged with the result, the result fields taking
precedence), or raises, answered by the catch at lines 82-95 with status
500 and the error message. -/
def chatRoute (body : ChatRequestBody) (run : Except String RunResult1) : HandlerOutcome :=
  if truthy body.initialPrompt = false then
    { response := { status := 400, body := JsonBody.missingPrompt },
      invokedAutomation := false }
  else
    match run with
    | Except.ok r =>
      { response := { status := 200, body := JsonBody.mergedResult r },
        invokedAutomation := true }
    | Except.error e =>
      { response := { status := 500, body := JsonBody.failure (errMsgOr e) suggestionText },
        invokedAutomation := true }

/-- The CAPTCHA element selectors of checkForCaptcha,
src/chatgpt-service.js lines 147-153. -/
def captchaSelectors : List String :=
  ["iframe[title*=\"recaptcha\"]",
   "iframe[src*=\"recaptcha\"]",
   "iframe[src*=\"captcha\"]",
   "div[class*=\"captcha\"]",
   "div[id*=\"captcha\"]"]

/-- The CAPTCHA keywords of checkForCaptcha, src/chatgpt-service.js
lines 155-161. -/
def captchaText : List String :=
  ["captcha", "robot", "verification", "verify", "human"]

/-- What checkForCaptcha observes of a page: whether page.$ finds an
element for a given selector, and the serialized page content returned
by page.content(). -/
structure CaptchaPage where
  selectorMatches : String → Bool
  content : String

/-- Substring occurrence on character lists, the semantics of
String.prototype.includes: the needle occurs at some position of the
haystack (the empty needle always occurs). -/
def hasSubstr (needle : List Char) : List Char → Bool
  | [] => needle.isEmpty
  | c :: rest => List.isPrefixOf needle (c :: rest) || hasSubstr needle rest

/-- JavaScript hay.includes(needle) for strings. -/
def jsIncludes (hay needle : String) : Bool :=
  hasSubstr needle.data hay.data

/-- JavaScript toLowerCase, characterwise lowering of the content (the
keywords and selectors involved are all ASCII). -/
def lowerContent (s : String) : String :=
  String.mk (s.data.map Char.toLower)

/-- checkForCaptcha from src/chatgpt-service.js lines 145-176: first the
element-selector loop (return true at the first selector page.$ finds),
then the keyword loop over pageContent.toLowerCase() (return true at the
first keyword included), else false.  The early-return loops are the two
disjuncts in order. -/
def checkForCaptcha (pg : CaptchaPage) : Bool :=
  captchaSelectors.any pg.selectorMatches
    || captchaText.any (fun t => jsIncludes (lowerContent pg.content) t)

/-- What safeClick (part_001 lines 92-121) observes of the page for its
selector: each awaited step either resolves or raises.  query models
page.$ resolving to whether an element exists, isVisible models
page.isVisible, mouseMoves the random mouse movements, click the
page.click call. -/
structure ClickEnv where
  query : Except String Bool
  isVisible : Except String Bool
  mouseMoves : Except String Unit
  click : Except String Unit

/-- The body of safeClick before its catch: return false when no element
is found (line 100) or the element is not visible (line 107), otherwise
move the mouse, click and return true (line 116); any raising step
propagates. -/
def safeClickBody (env : ClickEnv) : Except String Bool :=
  match env.query with
  | Except.error e => Except.error e
  | Except.ok found =>
    if !found then Except.ok false
    else
      match env.isVisible with
      | Except.error e => Except.error e
      | Except.ok vis =>
        if !vis then Except.ok false
        else
          match env.mouseMoves with
          | Except.error e => Except.error e
          | Except.ok _ =>
            match env.click with
            | Except.error e => Except.error e
            | Except.ok _ => Except.ok true

/-- safeClick from part_001 lines 92-121: the whole body sits in a
try/catch whose catch swallows any error and returns false (line 119). -/
def safeClick (env : ClickEnv) : Bool :=
  match safeClickBody env with
  | Except.ok b => b
  | Except.error _ => false

/-- The alphabet string of randomString, part_001 line 29. -/
def rsChars : String :=
  "abcdefghijklmnopqrstuvwxyzABCDEFGHIJKLMNOPQRSTUVWXYZ0123456789"

/-- The 62 characters of the randomString alphabet. -/
def rsAlphabet : List Char := rsChars.data

/-- chars.charAt applied to the index Math.floor(Math.random() *
chars.length) of part_001 line 32; that index always lies in
0..61, which the Fin 62 argument records. -/
def charAt62 (i : Fin 62) : Char :=
  rsAlphabet.get (Fin.mk i.val i.isLt)

/-- randomString from part_001 lines 28-35: starting from the empty
string, the loop appends for i = 0, ..., length - 1 the alphabet
character drawn at iteration i; the draws are the rng argument. -/
def randomString (length : Nat) (rng : Nat → Fin 62) : String :=
  String.mk ((List.range length).map (fun i => charAt62 (rng i)))

/-- A concrete page on which the first chat-input selector matches a
visible element, no send-button selector matches, nothing raises, and
the extraction evaluation yields a fixed text. -/
def happyPageA : Page1 :=
  { inputProbe := fun s => if s == "textarea[data-id=\"root\"]" then ProbeResult.ok else ProbeResult.absent,
    formInputSelector := none,
    bottomSelector := none,
    keyboardFocusFound := false,
    sendProbe := fun _ => ProbeResult.absent,
    formButtonSelector := none,
    responseWaitErr := none,
    replyTypingErr := none,
    extractedText := "Hi there!" }

/-- A second concrete page with the same shape as happyPageA, used for
the reply-prompt run. -/
def happyPageB : Page1 :=
  { inputProbe := fun s => if s == "textarea[data-id=\"root\"]" then ProbeResult.ok else ProbeResult.absent,
    formInputSelector := none,
    bottomSelector := none,
    keyboardFocusFound := false,
    sendProbe := fun _ => ProbeResult.absent,
    formButtonSelector := none,
    responseWaitErr := none,
    replyTypingErr := none,
    extractedText := "Hi there!" }

/-- A concrete page on which every input-location approach fails. -/
def deadPage : Page1 :=
  { inputProbe := fun _ => ProbeResult.absent,
    formInputSelector := none,
    bottomSelector := none,
    keyboardFocusFound := false,
    sendProbe := fun _ => ProbeResult.absent,
    formButtonSelector := none,
    responseWaitErr := none,
    replyTypingErr := none,
    extractedText := "" }

/-- A concrete request body carrying both prompts. -/
def bodyBothPrompts : ChatRequestBody :=
  { email := none, password := none,
    initialPrompt := some "Hello", replyPrompt := some "Tell me more" }

/-- A concrete request body carrying only the initial prompt. -/
def bodyInitialOnly : ChatRequestBody :=
  { email := none, password := none,
    initialPrompt := some "Hello", replyPrompt := none }

/-- A concrete request body with no initial prompt. -/
def bodyNoPrompt : ChatRequestBody :=
  { email := none, password := none,
    initialPrompt := none, replyPrompt := some "Tell me more" }

/-- A concrete successful run result. -/
def okResult : RunResult1 :=
  { success := true, initialResponse := some "Hi there!", replyResponse := none,
    initialCsvPath := some "", replyCsvPath := none, error := none }

/-- A concrete probe function that succeeds exactly on the bare textarea
selector. -/
def textareaProbe : String → ProbeResult :=
  fun s => if s == "textarea" then ProbeResult.ok else ProbeResult.absent

/-- The chat-input selectors listed before the bare textarea selector. -/
def selectorsBeforeTextarea : List String :=
  ["textarea[data-id=\"root\"]",
   "textarea[placeholder*=\"Send a message\"]",
   "textarea[placeholder*=\"Message ChatGPT\"]",
   "textarea[placeholder*=\"Ask anything\"]",
   "textarea[placeholder*=\"Chat with GPT\"]",
   "textarea.chat-input",
   "div[role=\"textbox\"]",
   "div[contenteditable=\"true\"]"]

/-- The chat-input selectors listed after the bare textarea selector. -/
def selectorsAfterTextarea : List String :=
  ["form textarea", "input[type=\"text\"]"]

/-- A concrete page whose serialized content mentions verification but on
which no CAPTCHA element selector matches. -/
def verifyPage : CaptchaPage :=
  { selectorMatches := fun _ => false,
    content := "Please VERIFY that you are a person" }

/-- A concrete click environment in which the element exists and is
visible but the click itself raises. -/
def clickRaisesEnv : ClickEnv :=
  { query := Except.ok true,
    isVisible := Except.ok true,
    mouseMoves := Except.ok (),
    click := Except.error "node detached" }

/-- A concrete sequence of draws for randomString. -/
def cyclicDraws : Nat → Fin 62 :=
  fun i => Fin.mk (i % 62) (Nat.mod_lt i (by decide))

theorem firstOkay_append_cons (probe : String → ProbeResult) (pre : List String)
    (s : String) (post : List String) (hs : probe s = ProbeResult.ok)
    (hpre : ∀ t ∈ pre, probe t ≠ ProbeResult.ok) :
    firstOkay probe (pre ++ s :: post) = some s ∧
      probedList probe (pre ++ s :: post) = pre ++ [s] := by
  induction pre with
  | nil => simp [firstOkay, probedList, hs]
  | cons a l ih =>
    have ha : probe a ≠ ProbeResult.ok := hpre a (by simp)
    have hl : ∀ t ∈ l, probe t ≠ ProbeResult.ok := fun t ht => hpre t (by simp [ht])
    obtain ⟨h1, h2⟩ := ih hl
    simp [firstOkay, probedList, ha, h1, h2]

theorem firstOkay_none_of_all_fail (probe : String → ProbeResult) (l : List String)
    (h : ∀ t ∈ l, probe t ≠ ProbeResult.ok) :
    firstOkay probe l = none ∧ probedList probe l = l := by
  induction l with
  | nil => simp [firstOkay, probedList]
  | cons a t ih =>
    have ha : probe a ≠ ProbeResult.ok := h a (by simp)
    obtain ⟨h1, h2⟩ := ih (fun x hx => h x (by simp [hx]))
    simp [firstOkay, probedList, ha, h1, h2]

/-- C5: the probe/selector fallback chain is tried strictly in its listed
order and stops at the first success.  For the two chains of part_001
(chatInputSelectors and sendButtonSelectors), whenever the chain splits
as earlier selectors, a selector s whose probe finds a visible element,
and later selectors, and every earlier selector failed, then the loop
chooses exactly s and the selectors actually probed are the earlier ones
followed by s (so a later selector is probed only when every earlier one
failed); and when every selector of a chain fails, the loop chooses none
and probes the whole chain. -/
theorem selector_chain_in_order_first_success (probe : String → ProbeResult) :
    (∀ pre s post,
        (chatInputSelectors = pre ++ s :: post ∨ sendButtonSelectors = pre ++ s :: post) →
        probe s = ProbeResult.ok → (∀ t ∈ pre, probe t ≠ ProbeResult.ok) →
        firstOkay probe (pre ++ s :: post) = some s ∧
          probedList probe (pre ++ s :: post) = pre ++ [s]) ∧
    ((∀ t ∈ chatInputSelectors, probe t ≠ ProbeResult.ok) →
        firstOkay probe chatInputSelectors = none ∧
          probedList probe chatInputSelectors = chatInputSelectors) ∧
    ((∀ t ∈ sendButtonSelectors, probe t ≠ ProbeResult.ok) →
        firstOkay probe sendButtonSelectors = none ∧
          probedList probe sendButtonSelectors = sendButtonSelectors) := by
  refine ⟨?_, ?_, ?_⟩
  · intro pre s post _hsplit hs hpre
    exact firstOkay_append_cons probe pre s post hs hpre
  · intro h
    exact firstOkay_none_of_all_fail probe chatInputSelectors h
  · intro h
    exact firstOkay_none_of_all_fail probe sendButtonSelectors h

/-- C5 witness: on a page where only the bare textarea selector succeeds,
the chat-input loop chooses it and probes exactly the eight earlier
selectors followed by it. -/
theorem selector_chain_in_order_first_success_witness :
    firstOkay textareaProbe chatInputSelectors = some "textarea" ∧
      probedList textareaProbe chatInputSelectors = selectorsBeforeTextarea ++ ["textarea"] := by
  have h := (selector_chain_in_order_first_success textareaProbe).1
    selectorsBeforeTextarea "textarea" selectorsAfterTextarea
    (Or.inl (by decide)) (by decide) (by decide)
  exact h

/-- C6: if no heuristic of the input-location chain succeeds - every
direct selector fails, the form-element search, the bottom-of-page
search and keyboard Tab navigation all find nothing - then the
automation run of part_001 terminates as a failure whose error states
the chat interface could not be accessed, no prompt is ever submitted,
and nothing is written. -/
theorem no_input_found_fails_without_submission (pg : Page1) (p : String)
    (rp : Option String)
    (h1 : ∀ t ∈ chatInputSelectors, pg.inputProbe t ≠ ProbeResult.ok)
    (h2 : pg.formInputSelector = none) (h3 : pg.bottomSelector = none)
    (h4 : pg.keyboardFocusFound = false) :
    chatGPTInteraction1 pg p rp =
      ({ success := false, initialResponse := none, replyResponse := none,
         initialCsvPath := none, replyCsvPath := none,
         error := some (couldNotAccess
           "Could not find any usable chat input interface. The page structure may have changed.") },
       { writes := [], submitted := [] }) := by
  have hfo : firstOkay pg.inputProbe chatInputSelectors = none :=
    (firstOkay_none_of_all_fail pg.inputProbe chatInputSelectors h1).1
  simp [chatGPTInteraction1, locateChatInput, hfo, h2, h3, h4]

/-- C6 witness: on the dead page the run fails with the
could-not-access error and submits nothing. -/
theorem no_input_found_fails_without_submission_witness :
    chatGPTInteraction1 deadPage "Hello" none =
      ({ success := false, initialResponse := none, replyResponse := none,
         initialCsvPath := none, replyCsvPath := none,
         error := some (couldNotAccess
           "Could not find any usable chat input interface. The page structure may have changed.") },
       { writes := [], submitted := [] }) :=
  no_input_found_fails_without_submission deadPage "Hello" none
    (by decide) rfl rfl rfl

/-- C1: refuted as stated against the service src/index.js actually
loads (part_001).  This run extracts a response and completes
successfully, yet its write trace is empty - chatGPTInteraction in
part_001 never calls saveResponseToCsv, and the returned initialCsvPath
is the empty string - whereas the claim demands exactly one persistence
write for the initial response.  The claim matches the legacy variant
src/chatgpt-service.js (see legacy_writes_once_per_response), so the
wired service contradicts the documented persistence behaviour. -/
theorem wired_run_extracts_response_but_never_writes :
    chatGPTInteraction1 happyPageA "Hello" none =
      ({ success := true, initialResponse := some "Hi there!", replyResponse := none,
         initialCsvPath := some "", replyCsvPath := none, error := none },
       { writes := [], submitted := ["Hello"] }) := rfl

/-- Support for C1 and C7: the legacy service variant does write exactly
once per extracted response and submits the follow-up exactly when a
reply prompt is present, as the spec describes. -/
theorem legacy_writes_once_per_response (env : LegacyEnv) (p : String)
    (rp : Option String) :
    (chatGPTInteractionLegacy env p rp).2.writes.length =
        1 + (match rp with | none => 0 | some _ => 1) ∧
      (chatGPTInteractionLegacy env p rp).2.submitted =
        p :: (match rp with | none => [] | some r => [r]) := by
  cases rp <;> simp [chatGPTInteractionLegacy]

/-- C7: refuted in its second half against the service src/index.js
actually loads (part_001).  On a run with a reply prompt the reply
branch calls the undefined identifier sendMessage (line 1661), so the
run fails with the resulting ReferenceError message and the follow-up
prompt is never submitted: the submission trace contains only the
initial prompt.  The first half of the claim (no reply prompt means
replyResponse and replyCsvPath are null while the initial response is
carried) does hold of the success shape at part_001 lines 1794-1801. -/
theorem wired_reply_prompt_raises_before_submission :
    chatGPTInteraction1 happyPageB "Hello" (some "Tell me more") =
      ({ success := false, initialResponse := none, replyResponse := none,
         initialCsvPath := none, replyCsvPath := none,
         error := some (couldNotAccess "sendMessage is not defined") },
       { writes := [], submitted := ["Hello"] }) := rfl

/-- C2: every persistence write - a call to saveResponseToCsv, the only
write in either service variant - produces a delimited file whose header
is the three columns Prompt, Response, Timestamp and which contains
exactly one record, holding the prompt that was sent, the extracted
response text, and the clock reading taken at write time. -/
theorem saveResponseToCsv_header_and_single_record
    (type prompt response tFile tRec : String) :
    (saveResponseToCsv type prompt response tFile tRec).header =
        ["Prompt", "Response", "Timestamp"] ∧
      (saveResponseToCsv type prompt response tFile tRec).records =
        [{ prompt := prompt, response := response, timestamp := tRec }] :=
  ⟨rfl, rfl⟩

/-- C3 counterexample: the claim states that a run completing without
raising is answered with HTTP 200 JSON containing success: true.  Here
the automation run of part_001 completes without raising (the handler
receives a resolved value) on a request with both prompts, yet the
response - status 200 - carries the JSON of a result whose success field
is false, because res.json spreads the run result over success: true and
the result fields take precedence. -/
theorem chat_route_200_with_success_false :
    (chatRoute bodyBothPrompts
        (Except.ok (chatGPTInteraction1 happyPageB "Hello" (some "Tell me more")).1)).response.status
        = 200 ∧
      jsonSuccess (chatRoute bodyBothPrompts
        (Except.ok (chatGPTInteraction1 happyPageB "Hello" (some "Tell me more")).1)).response.body
        = some false := ⟨rfl, rfl⟩

/-- C3 amended: for every POST /chat request whose initial prompt is
truthy, a run that completes without raising is answered with HTTP 200
JSON merging success: true with the run result, the result fields taking
precedence - so the success field of the JSON equals the run result's
own success flag - and a run that raises is answered with HTTP 500 JSON
carrying the error message (with the handler's fallback for an empty
message) and the fixed suggestion. -/
theorem chat_route_ok_and_error_shapes (body : ChatRequestBody)
    (r : RunResult1) (e : String) (h : truthy body.initialPrompt = true) :
    chatRoute body (Except.ok r) =
        { response := { status := 200, body := JsonBody.mergedResult r },
          invokedAutomation := true } ∧
      jsonSuccess (chatRoute body (Except.ok r)).response.body = some r.success ∧
      chatRoute body (Except.error e) =
        { response := { status := 500,
                        body := JsonBody.failure (errMsgOr e) suggestionText },
          invokedAutomation := true } := by
  refine ⟨?_, ?_, ?_⟩ <;> simp [chatRoute, h, jsonSuccess]

/-- C3 amended, witness: concrete instances of both response shapes. -/
theorem chat_route_ok_and_error_shapes_witness :
    chatRoute bodyInitialOnly (Except.ok okResult) =
        { response := { status := 200, body := JsonBody.mergedResult okResult },
          invokedAutomation := true } ∧
      jsonSuccess (chatRoute bodyInitialOnly (Except.ok okResult)).response.body = some true ∧
      chatRoute bodyInitialOnly (Except.error "browser launch failed") =
        { response := { status := 500,
                        body := JsonBody.failure (errMsgOr "browser launch failed") suggestionText },
          invokedAutomation := true } :=
  chat_route_ok_and_error_shapes bodyInitialOnly okResult "browser launch failed" rfl

/-- C4: a POST /chat request whose body lacks a truthy initial prompt is
answered with HTTP 400 and the missing-prompt error JSON, and the
automation component is never invoked, whatever the automation outcome
would have been. -/
theorem chat_route_missing_prompt (body : ChatRequestBody)
    (run : Except String RunResult1) (h : truthy body.initialPrompt = false) :
    chatRoute body run =
      { response := { status := 400, body := JsonBody.missingPrompt },
        invokedAutomation := false } := by
  simp [chatRoute, h]

/-- C4 witness: a concrete body without an initial prompt gets the 400
response and no automation invocation. -/
theorem chat_route_missing_prompt_witness :
    chatRoute bodyNoPrompt (Except.ok okResult) =
      { response := { status := 400, body := JsonBody.missingPrompt },
        invokedAutomation := false } :=
  chat_route_missing_prompt bodyNoPrompt (Except.ok okResult) rfl

/-- C8: checkForCaptcha returns true for every page whose serialized
content contains, case-insensitively, one of the keywords captcha,
robot, verification, verify, human - with no assumption on its element
selectors, so in particular even when none of them matches - and it
returns false only when no listed selector matches and none of the
keywords occurs in the lowered content. -/
theorem checkForCaptcha_keyword_and_false_conditions (pg : CaptchaPage) :
    ((∃ t, t ∈ captchaText ∧ jsIncludes (lowerContent pg.content) t = true) →
        checkForCaptcha pg = true) ∧
      (checkForCaptcha pg = false →
        (∀ s ∈ captchaSelectors, pg.selectorMatches s = false) ∧
          (∀ t ∈ captchaText, jsIncludes (lowerContent pg.content) t = false)) := by
  constructor
  · rintro ⟨t, ht, hinc⟩
    have : captchaText.any (fun u => jsIncludes (lowerContent pg.content) u) = true :=
      List.any_eq_true.mpr ⟨t, ht, hinc⟩
    simp [checkForCaptcha, this]
  · intro h
    rw [checkForCaptcha, Bool.or_eq_false_iff] at h
    obtain ⟨hsel, htext⟩ := h
    constructor
    · intro s hs
      by_contra hne
      have : captchaSelectors.any pg.selectorMatches = true :=
        List.any_eq_true.mpr ⟨s, hs, by simpa using hne⟩
      simp [this] at hsel
    · intro t ht
      by_contra hne
      have : captchaText.any (fun u => jsIncludes (lowerContent pg.content) u) = true :=
        List.any_eq_true.mpr ⟨t, ht, by simpa using hne⟩
      simp [this] at htext

/-- C8 witness: a page whose content mentions VERIFY is flagged although
no element selector matches. -/
theorem checkForCaptcha_keyword_and_false_conditions_witness :
    checkForCaptcha verifyPage = true :=
  (checkForCaptcha_keyword_and_false_conditions verifyPage).1
    ⟨"verify", by decide, by decide⟩

/-- C9: safeClick is total over its error cases.  Whatever the page
does, the try/catch guarantees a boolean outcome: every raising body
resolves to false; the element not existing yields false; the element
existing but not being visible yields false; and true is returned only
when the element was found, was visible, and the mouse movements and
the click itself all completed successfully. -/
theorem safeClick_total_over_errors (env : ClickEnv) :
    (∀ e, safeClickBody env = Except.error e → safeClick env = false) ∧
      (env.query = Except.ok false → safeClick env = false) ∧
      (env.query = Except.ok true → env.isVisible = Except.ok false →
        safeClick env = false) ∧
      (safeClick env = true →
        env.query = Except.ok true ∧ env.isVisible = Except.ok true ∧
          env.mouseMoves = Except.ok () ∧ env.click = Except.ok ()) := by
  refine ⟨?_, ?_, ?_, ?_⟩
  · intro e he
    simp [safeClick, he]
  · intro hq
    simp [safeClick, safeClickBody, hq]
  · intro hq hv
    simp [safeClick, safeClickBody, hq, hv]
  · intro htrue
    rcases hq : env.query with e | found
    · simp [safeClick, safeClickBody, hq] at htrue
    cases found
    · simp [safeClick, safeClickBody, hq] at htrue
    rcases hv : env.isVisible with e | vis
    · simp [safeClick, safeClickBody, hq, hv] at htrue
    cases vis
    · simp [safeClick, safeClickBody, hq, hv] at htrue
    rcases hm : env.mouseMoves with e | mu
    · simp [safeClick, safeClickBody, hq, hv, hm] at htrue
    rcases hc : env.click with e | cu
    · simp [safeClick, safeClickBody, hq, hv, hm, hc] at htrue
    exact ⟨rfl, rfl, rfl, rfl⟩

/-- C9 witness: a click that raises after the element was found and
visible still yields false. -/
theorem safeClick_total_over_errors_witness :
    safeClick clickRaisesEnv = false :=
  (safeClick_total_over_errors clickRaisesEnv).1 "node detached" rfl

/-- C10: for every length and every sequence of draws, randomString
returns a string of exactly that many characters, each of which belongs
to the 62-character alphabet of lowercase letters, uppercase letters and
digits. -/
theorem randomString_length_and_alphabet (length : Nat) (rng : Nat → Fin 62) :
    (randomString length rng).length = length ∧
      ∀ c ∈ (randomString length rng).data, c ∈ rsChars.data := by
  constructor
  · simp [randomString, String.length]
  · intro c hc
    have hc2 : c ∈ (List.range length).map (fun i => charAt62 (rng i)) := hc
    obtain ⟨i, _hi, rfl⟩ := List.mem_map.mp hc2
    exact List.get_mem rsAlphabet _ _

/-- C10 witness: a concrete five-character draw sequence yields a
five-character string over the alphabet. -/
theorem randomString_length_and_alphabet_witness :
    (randomString 5 cyclicDraws).length = 5 ∧
      ∀ c ∈ (randomString 5 cyclicDraws).data, c ∈ rsChars.data :=
  randomString_length_and_alphabet 5 cyclicDraws
